import Mathlib

/-!
Verification of the worker service (`src/worker-service/main.py`): a shallow
embedding of its configuration loading, job-processing loop, signal handling,
interruptible inter-job wait, and `/metrics` endpoint, together with theorems
settling the specification's claims about them.

Time is modelled in abstract "time units" (one unit per `time.sleep(1)`), and
each `time.sleep(k)` contributes `k` units.  Exceptions raised inside the
`try` block of the loop body are modelled by an outcome oracle, since the
simulated `process_job` itself has no failure path.
-/

namespace WorkerService

/-- Snapshot of an operating-system environment: each field is the value of
the corresponding environment variable, `none` when the variable is unset. -/
structure Env where
  FEATURE_BETA : Option String
  ENVIRONMENT : Option String
  JOB_INTERVAL : Option String
  PORT : Option String

/-- Decimal digit sequence to the natural number it denotes; `none` when the
list is empty or contains a non-digit character. -/
def parseDigits (ds : List Char) : Option Nat :=
  if ds ≠ [] ∧ ds.all Char.isDigit then
    some (ds.foldl (fun a c => 10 * a + (c.toNat - 48)) 0)
  else
    none

/-- Model of Python `int(s)` on a string: an optional sign followed by decimal
digits parses to the signed value; anything else raises `ValueError`,
modelled as `none`. -/
def pyInt (s : String) : Option Int :=
  match s.data with
  | '-' :: ds => (parseDigits ds).map (fun n => -(n : Int))
  | '+' :: ds => (parseDigits ds).map (fun n => (n : Int))
  | ds => (parseDigits ds).map (fun n => (n : Int))

/-- Model of Python `str.lower()`: lowercases each character (the values this
program compares are ASCII, where Python's and this case mapping agree). -/
def pyLower (s : String) : String :=
  String.mk (s.data.map Char.toLower)

/-- `FEATURE_BETA = os.getenv('FEATURE_BETA', 'false').lower() == 'true'`. -/
def load_FEATURE_BETA (e : Env) : Bool :=
  pyLower (e.FEATURE_BETA.getD "false") == "true"

/-- `ENVIRONMENT = os.getenv('ENVIRONMENT', 'unknown')`. -/
def load_ENVIRONMENT (e : Env) : String :=
  e.ENVIRONMENT.getD "unknown"

/-- `JOB_INTERVAL = int(os.getenv('JOB_INTERVAL', '30'))`; the default is the
string `'30'`, so an unset variable parses to `30`.  `none` models the
`ValueError` raised by `int` on a malformed value. -/
def load_JOB_INTERVAL (e : Env) : Option Int :=
  pyInt (e.JOB_INTERVAL.getD "30")

/-- `port = int(os.getenv('PORT', 8080))`; the default here is already the
integer `8080`, so `int` is only applied to a set value. -/
def load_PORT (e : Env) : Option Int :=
  match e.PORT with
  | none => some 8080
  | some s => pyInt s

/-- The shared mutable state of the worker process: the module-level globals
`running` (set `False` by the signal handler, read by the loop) and
`jobs_processed` (incremented by the loop, read by `/metrics`). -/
structure WorkerState where
  running : Bool
  jobs_processed : Nat
deriving DecidableEq, Repr

/-- `signal_handler(signum, frame)`: logs and sets the global `running` to
`False`.  It never touches `jobs_processed` and never sets `running` back to
`True`. -/
def signal_handler (s : WorkerState) (signum : Nat) : WorkerState :=
  { s with running := false }

/-- The operations of the program that can touch the shared state: delivery of
a termination signal (`signal_handler`), the controller committing a
successful iteration (`jobs_processed += 1`), the controller catching an
exception (counter untouched), and the reporter serving `/metrics` (pure
read). -/
inductive Op where
  | signal (signum : Nat)
  | jobCompleted
  | jobFailed
  | metricsRead
deriving DecidableEq, Repr

/-- Effect of one operation on the shared state, as performed by the source:
these four are the only accesses to `running` and `jobs_processed` in the
program. -/
def applyOp (s : WorkerState) : Op → WorkerState
  | .signal n => signal_handler s n
  | .jobCompleted => { s with jobs_processed := s.jobs_processed + 1 }
  | .jobFailed => s
  | .metricsRead => s

/-- Effect of a finite sequence of operations, applied left to right. -/
def applyOps (s : WorkerState) : List Op → WorkerState
  | [] => s
  | op :: rest => applyOps (applyOp s op) rest

/-- `process_job(job_id)`: logs, `time.sleep(2)`, then if `FEATURE_BETA` an
extra `time.sleep(1)`, then returns `True`.  Modelled as the pair of the
returned success indicator and the total simulated work duration in time
units. -/
def process_job (beta : Bool) (job_id : String) : Bool × Nat :=
  (true, 2 + if beta then 1 else 0)

/-- Whether `process_job` raises inside a given loop iteration.  The simulated
job itself always returns, so `exn` models an unexpected error injected into
the `try` block, which the `except` clause of `run_worker` catches. -/
inductive JobOutcome where
  | ok
  | exn
deriving DecidableEq, Repr

/-- Result of one iteration of the `while running` body of `run_worker`: the
value of `jobs_processed` after the iteration, the backoff sleep performed by
the `except` branch (in time units), and the job id synthesized at the top of
the `try` block. -/
structure IterResult where
  jobs_processed : Nat
  backoff : Nat
  job_id : String
deriving DecidableEq, Repr

/-- One iteration of the loop body of `run_worker` on counter value `j`:
`job_id = f"job-{jobs_processed + 1}"`, then `process_job(job_id)` followed by
`jobs_processed += 1` when no exception occurs; when an exception occurs the
`except` clause leaves the counter unchanged, logs, and sleeps 5 time units. -/
def loop_body (j : Nat) (outcome : JobOutcome) : IterResult :=
  let job_id := "job-" ++ toString (j + 1)
  match outcome with
  | .ok => { jobs_processed := j + 1, backoff := 0, job_id := job_id }
  | .exn => { jobs_processed := j, backoff := 5, job_id := job_id }

/-- Evolution of `jobs_processed` across the iterations of the `while running`
loop of `run_worker`, starting from counter value `j`; the list records the
outcome of each iteration executed before `running` is observed `False` at
the loop head. -/
def run_worker (j : Nat) : List JobOutcome → Nat
  | [] => j
  | o :: rest => run_worker (loop_body j o).jobs_processed rest

/-- The inter-job wait `for _ in range(n): if not running: break; time.sleep(1)`:
`runningAt k` is the value of the global `running` observed at the `k`-th
check, and the result is the number of one-second sleeps performed before the
wait ends (by `break` or by exhausting the range). -/
def waitSleeps : Nat → (Nat → Bool) → Nat
  | 0, _ => 0
  | n + 1, runningAt =>
      if runningAt 0 then 1 + waitSleeps n (fun k => runningAt (k + 1))
      else 0

/-- Body of the JSON object returned by the `/metrics` endpoint. -/
structure MetricsBody where
  service : String
  environment : String
  uptime_seconds : Nat
  jobs_processed : Nat
  job_interval : Int
  beta_enabled : Bool
deriving DecidableEq, Repr

/-- Immutable module-level configuration of the worker, loaded once at import
time. -/
structure Config where
  featureBeta : Bool
  environment : String
  jobInterval : Int
deriving DecidableEq, Repr

/-- The `/metrics` handler: computes the uptime and returns the JSON body and
HTTP status 200.  It reads `ENVIRONMENT`, `jobs_processed`, `JOB_INTERVAL`
and `FEATURE_BETA` and writes nothing (its state effect is `Op.metricsRead`,
which is the identity). -/
def metrics (cfg : Config) (s : WorkerState) (uptime : Nat) : MetricsBody × Nat :=
  ({ service := "worker-service"
     environment := cfg.environment
     uptime_seconds := uptime
     jobs_processed := s.jobs_processed
     job_interval := cfg.jobInterval
     beta_enabled := cfg.featureBeta }, 200)

/-! ## Helper lemmas -/

/-- The loop counter after a run equals its start value plus the number of
successful iterations. -/
theorem run_worker_eq_add_count (j : Nat) (evs : List JobOutcome) :
    run_worker j evs = j + evs.count JobOutcome.ok := by
  induction evs generalizing j with
  | nil => simp [run_worker]
  | cons o rest ih =>
      cases o with
      | ok => simp [run_worker, loop_body, ih, List.count_cons]; omega
      | exn => simp [run_worker, loop_body, ih, List.count_cons]

/-- No operation increases `running`: once the flag is observed `false`, any
single operation leaves it `false`. -/
theorem applyOp_running_false (s : WorkerState) (op : Op)
    (h : s.running = false) : (applyOp s op).running = false := by
  cases op <;> simp [applyOp, signal_handler, h]

/-- No operation decreases `jobs_processed`. -/
theorem applyOp_jobs_le (s : WorkerState) (op : Op) :
    s.jobs_processed ≤ (applyOp s op).jobs_processed := by
  cases op <;> simp [applyOp, signal_handler]

/-- `jobs_processed` is monotone along any sequence of operations. -/
theorem applyOps_jobs_le (s : WorkerState) (ops : List Op) :
    s.jobs_processed ≤ (applyOps s ops).jobs_processed := by
  induction ops generalizing s with
  | nil => simp [applyOps]
  | cons op rest ih =>
      exact le_trans (applyOp_jobs_le s op) (ih (applyOp s op))

/-- The wait performs at most `n` sleeps (it never exceeds the range bound). -/
theorem waitSleeps_le (n : Nat) (runningAt : Nat → Bool) :
    waitSleeps n runningAt ≤ n := by
  induction n generalizing runningAt with
  | zero => simp [waitSleeps]
  | succ m ih =>
      simp only [waitSleeps]
      by_cases h : runningAt 0 = true
      · simp only [h, if_true]
        have := ih (fun k => runningAt (k + 1))
        omega
      · simp only [Bool.not_eq_true] at h
        simp [h]

/-- If `running` is observed `false` at check `k`, the wait performs at most
`k` sleeps. -/
theorem waitSleeps_le_of_false (n k : Nat) (runningAt : Nat → Bool)
    (h : runningAt k = false) : waitSleeps n runningAt ≤ k := by
  induction n generalizing runningAt k with
  | zero => simp [waitSleeps]
  | succ m ih =>
      simp only [waitSleeps]
      by_cases h0 : runningAt 0 = true
      · cases k with
        | zero => rw [h0] at h; exact absurd h (by simp)
        | succ k' =>
            simp only [h0, if_true]
            have := ih k' (fun i => runningAt (i + 1)) h
            omega
      · simp only [Bool.not_eq_true] at h0
        simp [h0]

/-- Once `running` is `false`, it stays `false` along any sequence of
operations. -/
theorem applyOps_running_false (s : WorkerState) (ops : List Op)
    (h : s.running = false) : (applyOps s ops).running = false := by
  induction ops generalizing s with
  | nil => exact h
  | cons op rest ih => exact ih _ (applyOp_running_false s op h)

/-! ## Claims -/

/-- Claim C1: after the N-th successful completion the counter
`jobs_processed` is exactly N — the loop increments it by exactly 1 per
successful `process_job` call — and no operation of the program (signal
delivery, failed iteration, metrics read) ever decreases it. -/
theorem jobs_processed_counts_successes :
    (∀ n : Nat, run_worker 0 (List.replicate n JobOutcome.ok) = n) ∧
    (∀ (j : Nat) (evs : List JobOutcome), j ≤ run_worker j evs) ∧
    (∀ (s : WorkerState) (ops : List Op),
      s.jobs_processed ≤ (applyOps s ops).jobs_processed) := by
  refine ⟨fun n => ?_, fun j evs => ?_, applyOps_jobs_le⟩
  · rw [run_worker_eq_add_count]; simp
  · rw [run_worker_eq_add_count]; omega

/-- Claim C2: the inter-job wait polls `running` once per one-second sleep, so
if a termination request is observed `false` at poll `k` the wait performs at
most `k` sleeps — at most one time unit beyond the arrival of the signal —
and in any case never more than the configured interval `n`. -/
theorem wait_exits_within_poll_granularity (n k : Nat) (runningAt : Nat → Bool)
    (h : runningAt k = false) :
    waitSleeps n runningAt ≤ k ∧ waitSleeps n runningAt ≤ n :=
  ⟨waitSleeps_le_of_false n k runningAt h, waitSleeps_le n runningAt⟩

/-- Witness for C2: with the default interval of 30 and a signal observed at
poll 1, the wait performs at most 1 sleep instead of 30. -/
theorem wait_exits_within_poll_granularity_witness :
    ((fun i => decide (i < 1)) 1 = false) ∧
      waitSleeps 30 (fun i => decide (i < 1)) ≤ 1 ∧
      waitSleeps 30 (fun i => decide (i < 1)) ≤ 30 :=
  ⟨by decide, wait_exits_within_poll_granularity 30 1 (fun i => decide (i < 1)) (by decide)⟩

/-- Claim C3: once a termination signal has set `running` to `false`, no
sequence of subsequent operations reverts it; a second signal is exactly a
no-op on the state (so it cannot crash, decrement `jobs_processed`, or
produce an out-of-range counter), and the handler never touches the
counter. -/
theorem running_never_reverts (s : WorkerState) (h : s.running = false) :
    (∀ ops : List Op, (applyOps s ops).running = false) ∧
    (∀ n : Nat, signal_handler s n = s) ∧
    (∀ n : Nat, (signal_handler s n).jobs_processed = s.jobs_processed) ∧
    (∀ ops : List Op, s.jobs_processed ≤ (applyOps s ops).jobs_processed) := by
  refine ⟨fun ops => applyOps_running_false s ops h, fun n => ?_,
    fun n => rfl, fun ops => applyOps_jobs_le s ops⟩
  obtain ⟨r, jp⟩ := s
  simp only [signal_handler]
  simp_all

/-- Witness for C3: after a first SIGTERM the state is `⟨false, 3⟩`; further
signals and operations leave `running` false and a repeated signal is the
identity. -/
theorem running_never_reverts_witness :
    (applyOps ⟨false, 3⟩ [Op.signal 15, Op.signal 2, Op.jobCompleted]).running = false ∧
      signal_handler ⟨false, 3⟩ 15 = ⟨false, 3⟩ :=
  ⟨(running_never_reverts ⟨false, 3⟩ rfl).1 _,
    (running_never_reverts ⟨false, 3⟩ rfl).2.1 15⟩

/-- Claim C4: an exception during job processing never propagates out of
`run_worker` and never ends the loop: the iteration leaves the counter
unchanged, takes the fixed 5-time-unit backoff of the `except` clause, and
the loop goes on to execute the remaining iterations (in particular, `n`
subsequent successful iterations still add `n` to the counter). -/
theorem exception_is_caught_and_retried (j : Nat) (rest : List JobOutcome) :
    run_worker j (JobOutcome.exn :: rest) = run_worker j rest ∧
    (loop_body j JobOutcome.exn).jobs_processed = j ∧
    (loop_body j JobOutcome.exn).backoff = 5 ∧
    (∀ n : Nat, run_worker j (JobOutcome.exn :: List.replicate n JobOutcome.ok) = j + n) := by
  refine ⟨rfl, rfl, rfl, fun n => ?_⟩
  show run_worker j (List.replicate n JobOutcome.ok) = j + n
  rw [run_worker_eq_add_count]; simp

/-- Claim C5: for every job id the simulated work duration of `process_job`
is exactly 2 time units with the beta flag disabled and exactly 3 with it
enabled. -/
theorem process_job_beta_timing (job_id : String) :
    (process_job false job_id).2 = 2 ∧ (process_job true job_id).2 = 3 :=
  ⟨rfl, rfl⟩

/-- Claim C6: `process_job` returns the success indicator `True` on every
call, for every job id and both settings of the beta flag, and the job id the
loop invokes it with is synthesized from the current counter as
`job-(jobs_processed+1)`. -/
theorem process_job_always_succeeds (beta : Bool) (job_id : String)
    (j : Nat) (o : JobOutcome) :
    (process_job beta job_id).1 = true ∧
    (loop_body j o).job_id = "job-" ++ toString (j + 1) := by
  refine ⟨rfl, ?_⟩
  cases o <;> rfl

/-- Claim C7: every `/metrics` response has status 200 and carries all six
documented fields, with `job_interval` equal to the configured value and
`jobs_processed` equal to the counter at call time; serving the request
leaves the worker state unchanged. -/
theorem metrics_contract (cfg : Config) (s : WorkerState) (uptime : Nat) :
    (metrics cfg s uptime).2 = 200 ∧
    (metrics cfg s uptime).1.service = "worker-service" ∧
    (metrics cfg s uptime).1.environment = cfg.environment ∧
    (metrics cfg s uptime).1.uptime_seconds = uptime ∧
    (metrics cfg s uptime).1.jobs_processed = s.jobs_processed ∧
    (metrics cfg s uptime).1.job_interval = cfg.jobInterval ∧
    (metrics cfg s uptime).1.beta_enabled = cfg.featureBeta ∧
    applyOp s Op.metricsRead = s :=
  ⟨rfl, rfl, rfl, rfl, rfl, rfl, rfl, rfl⟩

/-- Claim C8, counterexample: the code applies `int()` to `JOB_INTERVAL`
without any positivity check, so the environment value "0" yields a
configured interval of 0 — refuting the claim that `JOB_INTERVAL` is a
positive integer. -/
theorem job_interval_not_validated_positive :
    load_JOB_INTERVAL ⟨none, none, some "0", none⟩ = some 0 ∧
    ¬ (∀ (e : Env) (i : Int), load_JOB_INTERVAL e = some i → 0 < i) := by
  refine ⟨by decide, fun h => ?_⟩
  have h0 := h ⟨none, none, some "0", none⟩ 0 (by decide)
  omega

/-- Claim C8, amended: with every environment variable unset, the
configuration takes the documented defaults — `FEATURE_BETA` false,
`ENVIRONMENT` "unknown", `JOB_INTERVAL` 30 (a positive default, though an
explicitly set value is not validated for positivity), `PORT` 8080. -/
theorem config_defaults :
    load_FEATURE_BETA ⟨none, none, none, none⟩ = false ∧
    load_ENVIRONMENT ⟨none, none, none, none⟩ = "unknown" ∧
    load_JOB_INTERVAL ⟨none, none, none, none⟩ = some 30 ∧
    (0 : Int) < 30 ∧
    load_PORT ⟨none, none, none, none⟩ = some 8080 := by
  refine ⟨by decide, by decide, by decide, by decide, by decide⟩

/-- Claim C10: when `process_job` raises, the iteration leaves
`jobs_processed` unchanged (the increment sits after the call), and since the
job id is recomputed from the counter, the next iteration synthesizes exactly
the same job id again. -/
theorem failed_iteration_reuses_job_id (j : Nat) (o : JobOutcome) :
    (loop_body j JobOutcome.exn).jobs_processed = j ∧
    (loop_body (loop_body j JobOutcome.exn).jobs_processed o).job_id
      = (loop_body j JobOutcome.exn).job_id := by
  refine ⟨rfl, ?_⟩
  cases o <;> rfl

end WorkerService
